import Mathlib

/-!
# Verification of the opencode-transmute core

Shallow embedding of the opencode-transmute package (branch naming, worktree
management, session store, configuration resolver, workspace orchestrator)
together with proofs of the specified properties.

Embedded directly from the sources under
`packages/opencode-transmute/src/core/config.ts` and the plugin entry point
(`createTerminalAdapter`, the `start-task` tool boundary).  The files
`core/naming.ts`, `core/session.ts`, `core/worktree.ts`, `core/hooks.ts` and
`tools/create-workspace.ts` are not part of the provided sources (only their
tests and callers are); the corresponding definitions are modelled from the
specification, as indicated in their doc comments.
-/

namespace Transmute

/-- Branch type prefix, from `branchTypeSchema` in `core/naming.ts`
(enum values as listed in the spec and in the tool schemas of `index.ts`). -/
inductive BranchType where
  | feat
  | fix
  | refactor
  | docs
  | chore
  | test
  deriving DecidableEq, Repr

/-- Render a branch type as the string used in branch names. -/
def BranchType.render : BranchType → String
  | .feat => "feat"
  | .fix => "fix"
  | .refactor => "refactor"
  | .docs => "docs"
  | .chore => "chore"
  | .test => "test"

/-- Task priority enum from the data model. -/
inductive Priority where
  | low
  | medium
  | high
  | critical
  deriving DecidableEq, Repr

/-- Terminal type options, from `terminalTypeSchema` in `core/config.ts`:
`z.enum(["wezterm", "tmux", "kitty", "none"])`. -/
inductive TerminalType where
  | wezterm
  | tmux
  | kitty
  | none
  deriving DecidableEq, Repr

/-- Hooks configuration: the `afterCreate` and `beforeDestroy` command lists.
Modelled from the spec: `core/hooks.ts` (`hooksConfigSchema`) is not among the
provided sources; both fields are optional lists of shell command strings
(the config tests exercise `hooks: {}` and hooks with only `afterCreate`). -/
structure HooksConfig where
  afterCreate : Option (List String) := Option.none
  beforeDestroy : Option (List String) := Option.none
  deriving DecidableEq, Repr

/-- Default hooks. Modelled from the spec: the value of `defaultHooks` in
`core/hooks.ts` is not among the provided sources; the config tests require a
non-empty `afterCreate` list, and the inline hook used by the plugin entry
point is the dependency-install command shown here. -/
def defaultHooks : HooksConfig :=
  { afterCreate := some ["[ -f package.json ] && pnpm install || true"] }

/-- Resolved configuration, from `configSchema` in `core/config.ts`.
`maxBranchSlugLength` is a positive integer; it is represented as `Nat`
(positivity is enforced by the schema parser below). -/
structure Config where
  worktreesDir : String
  defaultBranchType : BranchType
  maxBranchSlugLength : Nat
  hooks : HooksConfig
  terminal : TerminalType
  autoOpenTerminal : Bool
  autoRunHooks : Bool
  defaultBaseBranch : String
  useAiBranchNaming : Bool
  deriving DecidableEq, Repr

/-- Default configuration values, from `defaultConfig` in `core/config.ts`. -/
def defaultConfig : Config :=
  { worktreesDir := "./worktrees"
    defaultBranchType := .feat
    maxBranchSlugLength := 40
    hooks := defaultHooks
    terminal := .wezterm
    autoOpenTerminal := true
    autoRunHooks := true
    defaultBaseBranch := "main"
    useAiBranchNaming := true }

/-- Raw (unvalidated) hooks section as it appears in a config source. -/
structure RawHooks where
  afterCreate : Option (List String) := Option.none
  beforeDestroy : Option (List String) := Option.none
  deriving DecidableEq, Repr

/-- Raw (unvalidated) configuration as it appears in a config source, the
input of `configSchema.parse` / `mergeConfig` in `core/config.ts`.  Every
field is optional (the schema gives each a default).  Enum-valued fields are
raw strings; `maxBranchSlugLength` is a raw integer. -/
structure RawConfig where
  worktreesDir : Option String := Option.none
  defaultBranchType : Option String := Option.none
  maxBranchSlugLength : Option Int := Option.none
  hooks : Option RawHooks := Option.none
  terminal : Option String := Option.none
  autoOpenTerminal : Option Bool := Option.none
  autoRunHooks : Option Bool := Option.none
  defaultBaseBranch : Option String := Option.none
  useAiBranchNaming : Option Bool := Option.none
  deriving DecidableEq, Repr

/-- Parse a raw branch-type string against `branchTypeSchema`. -/
def parseBranchType : String → Option BranchType
  | "feat" => some .feat
  | "fix" => some .fix
  | "refactor" => some .refactor
  | "docs" => some .docs
  | "chore" => some .chore
  | "test" => some .test
  | _ => Option.none

/-- Parse a raw terminal string against `terminalTypeSchema`. -/
def parseTerminalType : String → Option TerminalType
  | "wezterm" => some .wezterm
  | "tmux" => some .tmux
  | "kitty" => some .kitty
  | "none" => some .none
  | _ => Option.none

/-- Function `configSchema.parse` from `core/config.ts` (also `mergeConfig`): apply the
per-field defaults and validate the enum fields and the positivity of
`maxBranchSlugLength`; a validation failure raises a `ZodError`, modelled as
`Except.error`. -/
def parseConfig (raw : RawConfig) : Except String Config := do
  let bt ← match raw.defaultBranchType with
    | Option.none => pure defaultConfig.defaultBranchType
    | some s =>
      match parseBranchType s with
      | some b => pure b
      | Option.none => Except.error "invalid defaultBranchType"
  let term ← match raw.terminal with
    | Option.none => pure defaultConfig.terminal
    | some s =>
      match parseTerminalType s with
      | some t => pure t
      | Option.none => Except.error "invalid terminal"
  let len ← match raw.maxBranchSlugLength with
    | Option.none => pure defaultConfig.maxBranchSlugLength
    | some n =>
      if 0 < n then pure n.toNat else Except.error "invalid maxBranchSlugLength"
  let hooks := match raw.hooks with
    | Option.none => defaultHooks
    | some h => { afterCreate := h.afterCreate, beforeDestroy := h.beforeDestroy }
  pure
    { worktreesDir := raw.worktreesDir.getD defaultConfig.worktreesDir
      defaultBranchType := bt
      maxBranchSlugLength := len
      hooks := hooks
      terminal := term
      autoOpenTerminal := raw.autoOpenTerminal.getD defaultConfig.autoOpenTerminal
      autoRunHooks := raw.autoRunHooks.getD defaultConfig.autoRunHooks
      defaultBaseBranch := raw.defaultBaseBranch.getD defaultConfig.defaultBaseBranch
      useAiBranchNaming := raw.useAiBranchNaming.getD defaultConfig.useAiBranchNaming }

/-- Source of a resolved configuration (`LoadConfigResult.source`). -/
inductive ConfigSource where
  | opencodeTs
  | json
  | defaults
  deriving DecidableEq, Repr

/-- Structure `LoadConfigResult` from `core/config.ts`. -/
structure LoadConfigResult where
  config : Config
  source : ConfigSource
  configPath : Option String := Option.none
  deriving DecidableEq, Repr

/-- Content found at a JSON config file location: either text that
`JSON.parse` rejects, or a parsed raw configuration object. -/
inductive JsonContent where
  | malformed
  | parsed (raw : RawConfig)
  deriving DecidableEq, Repr

/-- The filesystem facts `loadConfig` consults: the result of
`loadConfigFromOpencodeConfig` (which itself catches import errors and yields
`undefined`, modelled `Option.none`), and the JSON config file locations
(relative path to content). -/
structure ConfigEnv where
  tsSection : Option RawConfig
  files : String → Option JsonContent

/-- The two JSON config file locations, `CONFIG_FILES` in `core/config.ts`,
in order of precedence. -/
def configFiles : List String :=
  [".opencode/transmute.config.json", "transmute.config.json"]

/-- Join a base path and a relative path (`join` from `node:path` as used by
`loadConfig`, for the paths occurring here). -/
def joinPath (basePath rel : String) : String :=
  basePath ++ ("/" ++ rel)

/-- Function `findConfigFile` from `core/config.ts`: the first of the `CONFIG_FILES`
locations that exists (returned here as the relative path). -/
def findConfigFileRel (env : ConfigEnv) : Option String :=
  configFiles.find? (fun rel => (env.files rel).isSome)

/-- The defaults result of `loadConfig` (step 3): built-in defaults, source
`"default"`, no `configPath`. -/
def defaultLoadResult : LoadConfigResult :=
  { config := defaultConfig, source := .defaults }

/-- Step 2 of `loadConfig` from `core/config.ts`: try the JSON config files;
any read/parse/validation failure falls through to the defaults. -/
def loadConfigJsonStep (env : ConfigEnv) (basePath : String) : LoadConfigResult :=
  match findConfigFileRel env with
  | some rel =>
    match env.files rel with
    | some (JsonContent.parsed raw) =>
      match parseConfig raw with
      | Except.ok cfg =>
        { config := cfg, source := .json, configPath := some (joinPath basePath rel) }
      | Except.error _ => defaultLoadResult
    | _ => defaultLoadResult
  | Option.none => defaultLoadResult

/-- Function `loadConfig` from `core/config.ts`: try `opencode.config.ts` (transmute
section) first — a validation failure of that section is caught and falls
through to the JSON step — then the JSON config files, then defaults. -/
def loadConfig (env : ConfigEnv) (basePath : String) : LoadConfigResult :=
  match env.tsSection with
  | some raw =>
    match parseConfig raw with
    | Except.ok cfg =>
      { config := cfg, source := .opencodeTs
        configPath := some (joinPath basePath "opencode.config.ts") }
    | Except.error _ => loadConfigJsonStep env basePath
  | Option.none => loadConfigJsonStep env basePath

/-- Function `getHooksConfig` from `core/config.ts`: when neither `afterCreate` nor
`beforeDestroy` holds a non-empty list, return the default hooks, else the
configured hooks. -/
def getHooksConfig (config : Config) : HooksConfig :=
  let hooks := config.hooks
  if (hooks.afterCreate.getD []).isEmpty && (hooks.beforeDestroy.getD []).isEmpty then
    defaultHooks
  else
    hooks

/-- The terminal adapters the plugin can construct (only WezTerm is
implemented). -/
inductive AdapterKind where
  | wezterm
  deriving DecidableEq, Repr

/-- Function `createTerminalAdapter` from the plugin entry point: `"wezterm"` yields
the WezTerm adapter, `"none"` yields no adapter, and the unimplemented
`"tmux"`/`"kitty"` settings hit the `default` switch case, which also yields
the WezTerm adapter. -/
def createTerminalAdapter (config : Config) : Option AdapterKind :=
  match config.terminal with
  | .wezterm => some .wezterm
  | .none => Option.none
  | _ => some .wezterm

/-- A lowercase ASCII letter or digit: the characters a slug is built from. -/
def isSlugBase (c : Char) : Bool :=
  c.isLower || c.isDigit

/-- A character admissible in a final slug: `[a-z0-9-]`. -/
def isSlugChar (c : Char) : Bool :=
  isSlugBase c || c == '-'

/-- Lower-case a character and map anything outside `[a-z0-9]` to a hyphen. -/
def slugMapChar (c : Char) : Char :=
  let l := c.toLower
  if isSlugBase l then l else '-'

/-- Collapse runs of hyphens to a single hyphen.  The flag records whether
the previously emitted character was a hyphen. -/
def collapseAux : Bool → List Char → List Char
  | _, [] => []
  | prevHyphen, c :: rest =>
    if c = '-' then
      if prevHyphen then collapseAux true rest
      else '-' :: collapseAux true rest
    else c :: collapseAux false rest

/-- Collapse runs of hyphens to a single hyphen. -/
def collapseHyphens (l : List Char) : List Char :=
  collapseAux false l

/-- Drop leading and trailing hyphens. -/
def trimHyphens (l : List Char) : List Char :=
  ((l.dropWhile (fun c => c == '-')).reverse.dropWhile (fun c => c == '-')).reverse

/-- Slug normalization on character lists: lower-case, replace
non-alphanumeric runs by single hyphens, trim leading/trailing hyphens. -/
def slugifyList (l : List Char) : List Char :=
  trimHyphens (collapseHyphens (l.map slugMapChar))

/-- Slug normalization on strings.  Modelled from the spec: `core/naming.ts`
is not among the provided sources; the spec dictates lower-casing, replacing
non-alphanumeric runs with single hyphens and trimming leading/trailing
hyphens. -/
def slugify (s : String) : String :=
  String.mk (slugifyList s.data)

/-- Task metadata, the `TaskDescriptor` input of the branch namer. -/
structure TaskDescriptor where
  taskId : String
  title : String
  description : Option String := Option.none
  priority : Option Priority := Option.none
  type : Option BranchType := Option.none

/-- A generated branch name: type prefix and slug. -/
structure BranchName where
  type : BranchType
  slug : String

/-- The full branch string `type/slug`. -/
def BranchName.branch (b : BranchName) : String :=
  b.type.render ++ "/" ++ b.slug

/-- Function `generateBranchName` — modelled from the spec: `core/naming.ts` is not
among the provided sources.  With an override (e.g. AI-produced), validate it
against the slug charset rule (normalizing) and re-truncate to the configured
maximum; otherwise infer the type from the task (else the configured
default) and derive the slug deterministically from the task id and title,
truncating to the configured maximum. -/
def generateBranchName (task : TaskDescriptor) (override : Option BranchName)
    (cfg : Config) : BranchName :=
  match override with
  | some b =>
    { type := b.type
      slug := String.mk ((slugifyList b.slug.data).take cfg.maxBranchSlugLength) }
  | Option.none =>
    { type := task.type.getD cfg.defaultBranchType
      slug := String.mk
        ((slugifyList (task.taskId ++ "-" ++ task.title).data).take
          cfg.maxBranchSlugLength) }

/-- A persisted session record, from the data model (`core/session.ts` is not
among the provided sources; fields as listed in the spec). -/
structure Session where
  taskId : String
  taskName : String
  branch : String
  worktreePath : String
  opencodeSessionId : Option String := Option.none
  createdAt : Nat
  updatedAt : Nat
  deriving DecidableEq, Repr

/-- The full content of the persisted session file. -/
structure SessionState where
  sessions : List Session
  deriving DecidableEq, Repr

/-- A registered worktree: its branch and its directory. -/
structure Worktree where
  branch : String
  path : String
  deriving DecidableEq, Repr

/-- The state of one repository as the core observes and mutates it: the
registered worktrees of the version-control tree, the branches it knows, the
persisted session file, and a clock supplying timestamps. -/
structure World where
  worktrees : List Worktree := []
  branches : List String := []
  state : SessionState := ⟨[]⟩
  now : Nat := 0

/-- Function `loadState` — modelled from the spec: reads the session file if present,
else an empty state.  In this embedding the world always carries the current
file content. -/
def loadState (w : World) : SessionState :=
  w.state

/-- Function `findSessionByTask` — modelled from the spec: look the task id up in the
persisted state. -/
def findSessionByTask (st : SessionState) (taskId : String) : Option Session :=
  st.sessions.find? (fun s => s.taskId == taskId)

/-- Upsert by `taskId`: replace if present, else append (the read-modify-write
of `saveSession`, modelled from the spec). -/
def upsertSession (sessions : List Session) (s : Session) : List Session :=
  if sessions.any (fun x => x.taskId == s.taskId) then
    sessions.map (fun x => if x.taskId == s.taskId then s else x)
  else
    sessions ++ [s]

/-- Function `saveSession` — modelled from the spec: load the full state, upsert by
`taskId`, write the whole file back. -/
def saveSession (st : SessionState) (s : Session) : SessionState :=
  ⟨upsertSession st.sessions s⟩

/-- Function `removeSession` — modelled from the spec: read-modify-write removing the
matching entry; an absent entry is a no-op. -/
def removeSession (st : SessionState) (taskId : String) : SessionState :=
  ⟨st.sessions.filter (fun s => s.taskId != taskId)⟩

/-- Does some registered worktree use this branch?  (`worktreeExists` —
modelled from the spec: lists existing worktrees and checks branch
membership.) -/
def worktreeExistsBranch (w : World) (branch : String) : Bool :=
  w.worktrees.any (fun t => t.branch == branch)

/-- Does some registered worktree live at this path? -/
def worktreePathExists (w : World) (path : String) : Bool :=
  w.worktrees.any (fun t => t.path == path)

/-- Function `removeWorktree` — modelled from the spec: removes the worktree entry at
the given path; does not touch the session store. -/
def removeWorktree (w : World) (path : String) : World :=
  { w with worktrees := w.worktrees.filter (fun t => t.path != path) }

/-- Map a branch name to a directory name: every `/` replaced by `-`
(modelled from the spec and asserted by the integration test). -/
def branchDirName (branch : String) : String :=
  String.mk (branch.data.map (fun c => if c = '/' then '-' else c))

/-- Strip a leading `./` from a relative directory (the effect of
`resolve(basePath, worktreesDir)` on the default `"./worktrees"`). -/
def stripDotSlash (s : String) : String :=
  match s.data with
  | '.' :: '/' :: rest => String.mk rest
  | _ => s

/-- Target path of a worktree:
`basePath/worktreesDir/<branch-with-slashes-replaced-by-dashes>` (modelled
from the spec). -/
def worktreeTarget (basePath dir name : String) : String :=
  basePath ++ ("/" ++ (dir ++ ("/" ++ name)))

/-- The orchestrator's result contract, `WorkspaceResult`. -/
inductive Status where
  | created
  | existing
  | failed
  deriving DecidableEq, Repr

/-- Structure `WorkspaceResult`: the structure the orchestrator always returns. -/
structure WorkspaceResult where
  status : Status
  taskId : String
  taskName : Option String := Option.none
  branch : Option String := Option.none
  worktreePath : Option String := Option.none
  opencodeSessionId : Option String := Option.none
  message : Option String := Option.none
  deriving DecidableEq, Repr

/-- Input of the create-or-resume operation (`CreateWorkspaceInput`). -/
structure CreateWorkspaceInput where
  taskId : String
  title : String
  description : Option String := Option.none
  priority : Option Priority := Option.none
  type : Option BranchType := Option.none
  branchType : Option BranchType := Option.none
  branchSlug : Option String := Option.none
  baseBranch : Option String := Option.none

/-- Options threaded into the orchestrator (the session id of the calling
interactive session; hook and terminal effects do not touch the modelled
state and their failures are non-fatal by contract). -/
structure CreateOptions where
  opencodeSessionId : Option String := Option.none

/-- The caller-supplied branch-name override, when both parts are present. -/
def inputOverride (input : CreateWorkspaceInput) : Option BranchName :=
  match input.branchType, input.branchSlug with
  | some t, some s => some ⟨t, s⟩
  | _, _ => Option.none

/-- The task descriptor derived from the tool input. -/
def inputTask (input : CreateWorkspaceInput) : TaskDescriptor :=
  { taskId := input.taskId, title := input.title, description := input.description
    priority := input.priority, type := input.type }

/-- The branch name the orchestrator will use for a new workspace. -/
def workspaceBranch (input : CreateWorkspaceInput) (cfg : Config) : String :=
  (generateBranchName (inputTask input) (inputOverride input) cfg).branch

/-- The worktree path the orchestrator will use for a new workspace. -/
def workspaceTargetPath (input : CreateWorkspaceInput) (basePath : String)
    (cfg : Config) : String :=
  worktreeTarget basePath (stripDotSlash cfg.worktreesDir)
    (branchDirName (workspaceBranch input cfg))

/-- The session record persisted for a freshly created workspace. -/
def newSession (input : CreateWorkspaceInput) (basePath : String)
    (opts : CreateOptions) (cfg : Config) (w : World) : Session :=
  { taskId := input.taskId, taskName := input.title
    branch := workspaceBranch input cfg
    worktreePath := workspaceTargetPath input basePath cfg
    opencodeSessionId := opts.opencodeSessionId
    createdAt := w.now, updatedAt := w.now }

/-- The create-new path of the orchestrator (spec §4.8 step 3) — modelled
from the spec (`tools/create-workspace.ts` is not among the provided
sources): generate the branch name, create the worktree off the base branch
(failing if the target path is taken or the base branch is unknown), persist
the session record; `afterCreate` hooks and the terminal do not touch the
modelled state. -/
def createNewWorkspace (input : CreateWorkspaceInput) (basePath : String)
    (opts : CreateOptions) (cfg : Config) (w : World) : WorkspaceResult × World :=
  let branch := workspaceBranch input cfg
  let path := workspaceTargetPath input basePath cfg
  let base := input.baseBranch.getD cfg.defaultBaseBranch
  if worktreePathExists w path then
    ({ status := .failed, taskId := input.taskId
       message := some ("Worktree path already exists: " ++ path) }, w)
  else if !(w.branches.contains base) then
    ({ status := .failed, taskId := input.taskId
       message := some ("Base branch not found: " ++ base) }, w)
  else
    let sess := newSession input basePath opts cfg w
    let w1 := { w with worktrees := ⟨branch, path⟩ :: w.worktrees }
    let w2 := { w1 with state := saveSession w1.state sess }
    ({ status := .created, taskId := input.taskId, taskName := some input.title
       branch := some branch, worktreePath := some path
       opencodeSessionId := opts.opencodeSessionId }, w2)

/-- Function `createWorkspace`, the create-or-resume orchestrator — modelled from the
spec (§4.8; `tools/create-workspace.ts` is not among the provided sources):
look the task up in the session store; if found and its recorded worktree
path still exists, resume (status `"existing"`, refresh
`opencodeSessionId`/`updatedAt`, do not re-create); otherwise create a new
workspace (status `"created"`). -/
def createWorkspace (input : CreateWorkspaceInput) (basePath : String)
    (opts : CreateOptions) (cfg : Config) (w : World) : WorkspaceResult × World :=
  match findSessionByTask w.state input.taskId with
  | some s =>
    if worktreePathExists w s.worktreePath then
      let s1 := { s with
        opencodeSessionId := opts.opencodeSessionId.orElse (fun _ => s.opencodeSessionId)
        updatedAt := w.now }
      let w1 := { w with state := saveSession w.state s1 }
      ({ status := .existing, taskId := input.taskId, taskName := some s.taskName
         branch := some s.branch, worktreePath := some s.worktreePath
         opencodeSessionId := s1.opencodeSessionId }, w1)
    else
      createNewWorkspace input basePath opts cfg w
  | Option.none => createNewWorkspace input basePath opts cfg w

/-- Outcome of the inner `startTask` call as observed by the tool boundary:
either a returned `WorkspaceResult`, or a raised error with its message
(anything thrown during lookup, branch naming, worktree creation,
persistence, hooks or terminal opening). -/
inductive StartTaskOutcome where
  | ok (result : WorkspaceResult)
  | threw (msg : String)

/-- The JSON payload the `start-task` tool returns to its caller. -/
structure StartTaskOutput where
  status : Status
  message : String
  taskId : String
  taskName : Option String := Option.none
  branch : Option String := Option.none
  worktreePath : Option String := Option.none
  opencodeSessionId : Option String := Option.none
  configSource : Option String := Option.none
  deriving DecidableEq, Repr

/-- The `execute` body of the `start-task` tool from the plugin entry point:
build the status-dependent message on success, and catch any raised error,
converting it to a `status:"failed"` payload with message `"Error: <msg>"`
and the task id of the arguments (`"unknown"` when that is empty/falsy). -/
def startTaskExecute (outcome : StartTaskOutcome) (argsTaskId : String)
    (source : String) : StartTaskOutput :=
  match outcome with
  | .ok result =>
    let message : String :=
      match result.status with
      | .created => "Created new worktree for task: " ++ result.taskId
      | .existing => "Resumed existing worktree for task: " ++ result.taskId
      | .failed =>
        let m := result.message.getD ""
        if m = "" then "Failed to start task: " ++ result.taskId else m
    { status := result.status, message := message, taskId := result.taskId
      taskName := result.taskName, branch := result.branch
      worktreePath := result.worktreePath
      opencodeSessionId := result.opencodeSessionId
      configSource := some source }
  | .threw msg =>
    { status := .failed, message := "Error: " ++ msg
      taskId := if argsTaskId = "" then "unknown" else argsTaskId }

/-- Concrete fixture: a minimal task input. -/
def fixtureInput : CreateWorkspaceInput :=
  { taskId := "t", title := "A" }

/-- Concrete fixture: a fresh repository world with a `main` branch. -/
def fixtureWorld : World :=
  { branches := ["main"] }

/-- Concrete fixture: the scenario A input of the integration test. -/
def scenarioAInput : CreateWorkspaceInput :=
  { taskId := "task-1", title := "Integration Test Task"
    description := some "Testing the full flow", priority := some .high }

/-- Concrete fixture: a raw configuration the schema rejects
(non-positive `maxBranchSlugLength`). -/
def rawBadConfig : RawConfig :=
  { maxBranchSlugLength := some (-1) }

/-- Concrete fixture: an environment whose `opencode.config.ts` transmute
section fails validation and which has no JSON config file. -/
def envTsBad : ConfigEnv :=
  { tsSection := some rawBadConfig, files := fun _ => Option.none }

/-- Concrete fixture: an environment with no configuration source at all. -/
def envEmpty : ConfigEnv :=
  { tsSection := Option.none, files := fun _ => Option.none }

/-- Concrete fixture: an environment with a valid (empty) transmute section
and JSON files present everywhere — the structured module must win. -/
def envTsOk : ConfigEnv :=
  { tsSection := some {}, files := fun _ => some JsonContent.malformed }

/-- Concrete fixture: no transmute section; the second JSON location exists
but holds text `JSON.parse` rejects. -/
def envJsonMalformed : ConfigEnv :=
  { tsSection := Option.none
    files := fun rel =>
      if rel = "transmute.config.json" then some JsonContent.malformed
      else Option.none }

/-- Concrete fixture: no transmute section; the second JSON location exists
but its content fails schema validation. -/
def envJsonBad : ConfigEnv :=
  { tsSection := Option.none
    files := fun rel =>
      if rel = "transmute.config.json" then some (JsonContent.parsed rawBadConfig)
      else Option.none }

/-- Concrete fixture: a configuration whose hooks section is entirely empty. -/
def hooksEmptyConfig : Config :=
  { defaultConfig with hooks := {} }

/-- Concrete fixture: a configuration with user hooks for both lifecycle
points. -/
def hooksCustomConfig : Config :=
  { defaultConfig with
      hooks := { afterCreate := some ["custom-install"]
                 beforeDestroy := some ["custom-cleanup"] } }

/-- Concrete fixture: a configuration whose hooks section only sets
`beforeDestroy`. -/
def hooksDestroyConfig : Config :=
  { defaultConfig with hooks := { beforeDestroy := some ["custom-cleanup"] } }

/-! ## Helper lemmas about slug normalization -/

theorem isSlugChar_slugMapChar (c : Char) : isSlugChar (slugMapChar c) = true := by
  simp only [slugMapChar]
  by_cases h : isSlugBase c.toLower = true
  · rw [if_pos h]
    simp [isSlugChar, h]
  · rw [if_neg h]
    rfl

theorem mem_collapseAux {c : Char} :
    ∀ {b : Bool} {l : List Char}, c ∈ collapseAux b l → c ∈ l ∨ c = '-' := by
  intro b l
  induction l generalizing b with
  | nil => intro h; simp [collapseAux] at h
  | cons x rest ih =>
    intro h
    simp only [collapseAux] at h
    by_cases hx : x = '-'
    · rw [if_pos hx] at h
      cases b with
      | true =>
        simp only [if_pos rfl] at h
        rcases ih h with h1 | h1
        · exact Or.inl (List.mem_cons_of_mem _ h1)
        · exact Or.inr h1
      | false =>
        simp only [Bool.false_eq_true, if_neg] at h
        rcases List.mem_cons.mp h with h1 | h1
        · exact Or.inr (h1.trans rfl)
        · rcases ih h1 with h2 | h2
          · exact Or.inl (List.mem_cons_of_mem _ h2)
          · exact Or.inr h2
    · rw [if_neg hx] at h
      rcases List.mem_cons.mp h with h1 | h1
      · exact Or.inl (h1 ▸ List.mem_cons_self x rest)
      · rcases ih h1 with h2 | h2
        · exact Or.inl (List.mem_cons_of_mem _ h2)
        · exact Or.inr h2

theorem mem_trimHyphens {l : List Char} {c : Char} (hc : c ∈ trimHyphens l) :
    c ∈ l := by
  simp only [trimHyphens] at hc
  rw [List.mem_reverse] at hc
  have h1 := (List.dropWhile_sublist (l := (l.dropWhile (fun c => c == '-')).reverse)
    (fun c => c == '-')).mem hc
  rw [List.mem_reverse] at h1
  exact (List.dropWhile_sublist (fun c => c == '-')).mem h1

theorem slugifyList_valid {l : List Char} {c : Char} (hc : c ∈ slugifyList l) :
    isSlugChar c = true := by
  simp only [slugifyList] at hc
  have h1 := mem_trimHyphens hc
  rcases mem_collapseAux h1 with h2 | h2
  · rcases List.mem_map.mp h2 with ⟨a, _, ha⟩
    exact ha ▸ isSlugChar_slugMapChar a
  · subst h2; rfl

theorem take_slugifyList_valid {l : List Char} {n : Nat} {c : Char}
    (hc : c ∈ (slugifyList l).take n) : isSlugChar c = true :=
  slugifyList_valid ((List.take_sublist n (slugifyList l)).mem hc)

/-! ## Helper lemmas about the session store -/

theorem find?_map_replace (s : Session) :
    ∀ (l : List Session), l.any (fun x => x.taskId == s.taskId) = true →
      (l.map (fun x => if x.taskId == s.taskId then s else x)).find?
        (fun x => x.taskId == s.taskId) = some s := by
  intro l
  induction l with
  | nil => intro h; simp at h
  | cons x rest ih =>
    intro h
    by_cases hx : (x.taskId == s.taskId) = true
    · simp only [List.map_cons, if_pos hx]
      simp [List.find?]
    · have hx2 : (x.taskId == s.taskId) = false := Bool.eq_false_iff.mpr hx
      simp only [List.map_cons]
      rw [if_neg hx]
      simp only [List.find?, hx2]
      apply ih
      simp only [List.any_cons, hx2, Bool.false_or] at h
      exact h

theorem find?_upsert (l : List Session) (s : Session) :
    (upsertSession l s).find? (fun x => x.taskId == s.taskId) = some s := by
  simp only [upsertSession]
  by_cases h : l.any (fun x => x.taskId == s.taskId) = true
  · rw [if_pos h]
    exact find?_map_replace s l h
  · rw [if_neg h]
    rw [List.find?_append]
    have hnone : l.find? (fun x => x.taskId == s.taskId) = Option.none := by
      rw [List.find?_eq_none]
      intro x hx
      have := List.any_eq_false.mp (Bool.eq_false_iff.mpr h) x hx
      simpa using this
    rw [hnone]
    simp [List.find?]

theorem findSessionByTask_saveSession (st : SessionState) (s : Session) :
    findSessionByTask (saveSession st s) s.taskId = some s := by
  simp only [findSessionByTask, saveSession]
  exact find?_upsert st.sessions s

theorem findSessionByTask_removeSession (st : SessionState) (tid : String) :
    findSessionByTask (removeSession st tid) tid = Option.none := by
  simp only [findSessionByTask, removeSession]
  rw [List.find?_eq_none]
  intro x hx
  have hmem := List.mem_filter.mp hx
  simpa using hmem.2

theorem removeSession_no_entry (st : SessionState) (tid : String) :
    ∀ s ∈ (removeSession st tid).sessions, s.taskId ≠ tid := by
  intro s hs
  have hmem := List.mem_filter.mp hs
  simpa using hmem.2

/-! ## Helper lemmas about the orchestrator -/

theorem createWorkspace_fresh (input : CreateWorkspaceInput) (basePath : String)
    (opts : CreateOptions) (cfg : Config) (w : World)
    (hfresh : findSessionByTask w.state input.taskId = Option.none)
    (hpath : worktreePathExists w (workspaceTargetPath input basePath cfg) = false)
    (hbase : w.branches.contains (input.baseBranch.getD cfg.defaultBaseBranch) = true) :
    createWorkspace input basePath opts cfg w =
      ({ status := .created, taskId := input.taskId, taskName := some input.title
         branch := some (workspaceBranch input cfg)
         worktreePath := some (workspaceTargetPath input basePath cfg)
         opencodeSessionId := opts.opencodeSessionId },
       { w with
           worktrees :=
             ⟨workspaceBranch input cfg, workspaceTargetPath input basePath cfg⟩
               :: w.worktrees
           state := saveSession w.state (newSession input basePath opts cfg w) }) := by
  rw [createWorkspace, hfresh]
  rw [createNewWorkspace]
  simp only [hpath, hbase, Bool.false_eq_true, if_neg, Bool.not_true,
    Bool.false_eq_true]
  rfl

theorem createWorkspace_resume (input : CreateWorkspaceInput) (basePath : String)
    (opts : CreateOptions) (cfg : Config) (w : World) (s : Session)
    (hfound : findSessionByTask w.state input.taskId = some s)
    (hexists : worktreePathExists w s.worktreePath = true) :
    createWorkspace input basePath opts cfg w =
      ({ status := .existing, taskId := input.taskId, taskName := some s.taskName
         branch := some s.branch, worktreePath := some s.worktreePath
         opencodeSessionId := opts.opencodeSessionId.orElse (fun _ => s.opencodeSessionId) },
       { w with
           state := saveSession w.state
             { s with
                 opencodeSessionId := opts.opencodeSessionId.orElse (fun _ => s.opencodeSessionId)
                 updatedAt := w.now } }) := by
  rw [createWorkspace, hfound]
  simp only [hexists, if_pos]

theorem createNewWorkspace_created_state (input : CreateWorkspaceInput)
    (basePath : String) (opts : CreateOptions) (cfg : Config) (w : World)
    (h : (createNewWorkspace input basePath opts cfg w).1.status = Status.created) :
    (createNewWorkspace input basePath opts cfg w).2.state
      = saveSession w.state (newSession input basePath opts cfg w) := by
  rw [createNewWorkspace] at h ⊢
  by_cases h1 : worktreePathExists w (workspaceTargetPath input basePath cfg) = true
  · rw [if_pos h1] at h
    exact absurd h (by simp)
  · rw [if_neg h1] at h ⊢
    by_cases h2 : (!w.branches.contains (input.baseBranch.getD cfg.defaultBaseBranch)) = true
    · rw [if_pos h2] at h
      exact absurd h (by simp)
    · rw [if_neg h2]

theorem createWorkspace_created_state (input : CreateWorkspaceInput)
    (basePath : String) (opts : CreateOptions) (cfg : Config) (w : World)
    (h : (createWorkspace input basePath opts cfg w).1.status = Status.created) :
    (createWorkspace input basePath opts cfg w).2.state
      = saveSession w.state (newSession input basePath opts cfg w) := by
  cases hfind : findSessionByTask w.state input.taskId with
  | none =>
    simp only [createWorkspace, hfind] at h ⊢
    exact createNewWorkspace_created_state input basePath opts cfg w h
  | some s =>
    by_cases hex : worktreePathExists w s.worktreePath = true
    · rw [createWorkspace_resume input basePath opts cfg w s hfind hex] at h
      exact absurd h (by simp)
    · simp only [createWorkspace, hfind] at h ⊢
      rw [if_neg hex] at h ⊢
      exact createNewWorkspace_created_state input basePath opts cfg w h

/-! ## Claim theorems -/

/-- C2: the top-level orchestrator call never raises past its own boundary.
The `start-task` tool `execute` body is a total function of the inner
outcome: a raised error (any failure during lookup, branch naming, worktree
creation, persistence, hooks, or terminal opening) is caught and converted
into a `status:"failed"` payload whose message is the human-readable
`"Error: <msg>"`, and a returned result passes its status through — no
exception propagates to the caller. -/
theorem startTask_never_raises (msg argsTaskId source : String)
    (r : WorkspaceResult) :
    (startTaskExecute (StartTaskOutcome.threw msg) argsTaskId source).status
        = Status.failed
      ∧ (startTaskExecute (StartTaskOutcome.threw msg) argsTaskId source).message
        = "Error: " ++ msg
      ∧ (startTaskExecute (StartTaskOutcome.ok r) argsTaskId source).status
        = r.status :=
  ⟨rfl, rfl, rfl⟩

/-- C5: for every task, every supplied override and every configuration, the
slug of the branch name produced by `generateBranchName` uses only
characters from `[a-z0-9-]` and has length at most the configured
`maxBranchSlugLength`. -/
theorem generateBranchName_slug_invariant (task : TaskDescriptor)
    (override : Option BranchName) (cfg : Config) :
    (generateBranchName task override cfg).slug.length ≤ cfg.maxBranchSlugLength
      ∧ ∀ c ∈ (generateBranchName task override cfg).slug.data,
          isSlugChar c = true := by
  cases override with
  | none =>
    constructor
    · show (String.mk _).length ≤ _
      simp [String.length, List.length_take]
    · intro c hc
      exact take_slugifyList_valid hc
  | some b =>
    constructor
    · show (String.mk _).length ≤ _
      simp [String.length, List.length_take]
    · intro c hc
      exact take_slugifyList_valid hc

/-- C8: every `Config` field has a default and none is required — validating
the empty object with the config schema succeeds and yields exactly the
default configuration. -/
theorem configSchema_empty_yields_defaults :
    parseConfig {} = Except.ok defaultConfig
      ∧ defaultConfig =
        { worktreesDir := "./worktrees"
          defaultBranchType := .feat
          maxBranchSlugLength := 40
          hooks := defaultHooks
          terminal := .wezterm
          autoOpenTerminal := true
          autoRunHooks := true
          defaultBaseBranch := "main"
          useAiBranchNaming := true } :=
  ⟨rfl, rfl⟩

/-- C9: an empty hooks configuration cannot disable the default hooks —
when both `afterCreate` and `beforeDestroy` are empty or absent,
`getHooksConfig` returns the built-in default hooks; a non-empty
`afterCreate` or `beforeDestroy` list makes it return the configured hooks
instead. -/
theorem getHooksConfig_empty_defaults (cfg : Config) :
    ((cfg.hooks.afterCreate.getD [] = []) → (cfg.hooks.beforeDestroy.getD [] = []) →
        getHooksConfig cfg = defaultHooks)
      ∧ (∀ c cs, cfg.hooks.afterCreate = some (c :: cs) →
          getHooksConfig cfg = cfg.hooks)
      ∧ (∀ c cs, cfg.hooks.beforeDestroy = some (c :: cs) →
          getHooksConfig cfg = cfg.hooks) := by
  refine ⟨?_, ?_, ?_⟩
  · intro h1 h2
    simp [getHooksConfig, h1, h2]
  · intro c cs h1
    simp [getHooksConfig, h1]
  · intro c cs h1
    simp [getHooksConfig, h1]

/-- C10: terminal adapter selection falls back to WezTerm for unimplemented
variants — `createTerminalAdapter` returns no adapter exactly when the
configured terminal is `"none"`; for `"wezterm"` and for the accepted but
unimplemented `"tmux"` and `"kitty"` it returns the WezTerm adapter. -/
theorem createTerminalAdapter_fallback (cfg : Config) :
    createTerminalAdapter cfg =
      if cfg.terminal = TerminalType.none then Option.none
      else some AdapterKind.wezterm := by
  obtain ⟨w, b, m, hk, t, ao, ar, db, ai⟩ := cfg
  cases t <;> rfl

theorem findSessionByTask_saveSession_tid (st : SessionState) (s : Session)
    (tid : String) (h : s.taskId = tid) :
    findSessionByTask (saveSession st s) tid = some s :=
  h ▸ findSessionByTask_saveSession st s

/-- C1: idempotent resume — against a fresh repository, a first call to the
orchestrator's create-or-resume operation returns status `"created"`, and a
second call with the same `taskId` and inputs returns status `"existing"`
with `branch` and `worktreePath` identical to those of the first call. -/
theorem createWorkspace_idempotent_resume (input : CreateWorkspaceInput)
    (basePath : String) (opts : CreateOptions) (cfg : Config) (w : World)
    (hfresh : findSessionByTask w.state input.taskId = Option.none)
    (hpath : worktreePathExists w (workspaceTargetPath input basePath cfg) = false)
    (hbase : w.branches.contains (input.baseBranch.getD cfg.defaultBaseBranch) = true) :
    (createWorkspace input basePath opts cfg w).1.status = Status.created
      ∧ (createWorkspace input basePath opts cfg
          (createWorkspace input basePath opts cfg w).2).1.status = Status.existing
      ∧ (createWorkspace input basePath opts cfg
          (createWorkspace input basePath opts cfg w).2).1.branch
        = (createWorkspace input basePath opts cfg w).1.branch
      ∧ (createWorkspace input basePath opts cfg
          (createWorkspace input basePath opts cfg w).2).1.worktreePath
        = (createWorkspace input basePath opts cfg w).1.worktreePath := by
  have h1 := createWorkspace_fresh input basePath opts cfg w hfresh hpath hbase
  have hfind2 : findSessionByTask (createWorkspace input basePath opts cfg w).2.state
      input.taskId = some (newSession input basePath opts cfg w) := by
    rw [h1]
    exact findSessionByTask_saveSession_tid w.state
      (newSession input basePath opts cfg w) input.taskId rfl
  have hex2 : worktreePathExists (createWorkspace input basePath opts cfg w).2
      (newSession input basePath opts cfg w).worktreePath = true := by
    rw [h1]
    simp [worktreePathExists, newSession]
  have h2 := createWorkspace_resume input basePath opts cfg
    (createWorkspace input basePath opts cfg w).2
    (newSession input basePath opts cfg w) hfind2 hex2
  rw [h2, h1]
  exact ⟨rfl, rfl, rfl, rfl⟩

/-- Witness for C1: the idempotent-resume theorem applied to a concrete
fresh world. -/
theorem createWorkspace_idempotent_resume_witness :
    (createWorkspace fixtureInput "/r" {} defaultConfig fixtureWorld).1.status
        = Status.created
      ∧ (createWorkspace fixtureInput "/r" {} defaultConfig
          (createWorkspace fixtureInput "/r" {} defaultConfig fixtureWorld).2).1.status
        = Status.existing
      ∧ (createWorkspace fixtureInput "/r" {} defaultConfig
          (createWorkspace fixtureInput "/r" {} defaultConfig fixtureWorld).2).1.branch
        = (createWorkspace fixtureInput "/r" {} defaultConfig fixtureWorld).1.branch
      ∧ (createWorkspace fixtureInput "/r" {} defaultConfig
          (createWorkspace fixtureInput "/r" {} defaultConfig fixtureWorld).2).1.worktreePath
        = (createWorkspace fixtureInput "/r" {} defaultConfig fixtureWorld).1.worktreePath :=
  createWorkspace_idempotent_resume fixtureInput "/r" {} defaultConfig fixtureWorld
    rfl rfl rfl

/-- C4: session/worktree independence — after `createWorkspace` succeeds,
removing the worktree at the workspace's path leaves the session record
discoverable by `taskId`; a subsequent `removeSession` makes
`findSessionByTask` return `undefined` and leaves no entry for the task in
the state returned by `loadState`. -/
theorem removeWorktree_keeps_session (input : CreateWorkspaceInput)
    (basePath : String) (opts : CreateOptions) (cfg : Config) (w : World)
    (p : String)
    (hstatus : (createWorkspace input basePath opts cfg w).1.status = Status.created)
    (_hp : (createWorkspace input basePath opts cfg w).1.worktreePath = some p) :
    (findSessionByTask
        (removeWorktree (createWorkspace input basePath opts cfg w).2 p).state
        input.taskId).isSome = true
      ∧ findSessionByTask
          (removeSession
            (loadState (removeWorktree (createWorkspace input basePath opts cfg w).2 p))
            input.taskId) input.taskId = Option.none
      ∧ ∀ s ∈ (removeSession
            (loadState (removeWorktree (createWorkspace input basePath opts cfg w).2 p))
            input.taskId).sessions, s.taskId ≠ input.taskId := by
  have hstate := createWorkspace_created_state input basePath opts cfg w hstatus
  refine ⟨?_, ?_, ?_⟩
  · have hrw : (removeWorktree (createWorkspace input basePath opts cfg w).2 p).state
        = (createWorkspace input basePath opts cfg w).2.state := rfl
    rw [hrw, hstate,
      findSessionByTask_saveSession_tid w.state (newSession input basePath opts cfg w)
        input.taskId rfl]
    rfl
  · exact findSessionByTask_removeSession _ input.taskId
  · exact removeSession_no_entry _ input.taskId

/-- Witness for C4: the independence theorem applied to a concrete created
workspace and its worktree path. -/
theorem removeWorktree_keeps_session_witness :
    (findSessionByTask
        (removeWorktree (createWorkspace fixtureInput "/r" {} defaultConfig fixtureWorld).2
          "/r/worktrees/feat-t-a").state "t").isSome = true
      ∧ findSessionByTask
          (removeSession
            (loadState (removeWorktree
              (createWorkspace fixtureInput "/r" {} defaultConfig fixtureWorld).2
              "/r/worktrees/feat-t-a")) "t") "t" = Option.none
      ∧ ∀ s ∈ (removeSession
            (loadState (removeWorktree
              (createWorkspace fixtureInput "/r" {} defaultConfig fixtureWorld).2
              "/r/worktrees/feat-t-a")) "t").sessions, s.taskId ≠ "t" :=
  removeWorktree_keeps_session fixtureInput "/r" {} defaultConfig fixtureWorld
    "/r/worktrees/feat-t-a" (by decide) (by decide)

theorem scenarioA_targetPath (basePath : String) :
    workspaceTargetPath scenarioAInput basePath defaultConfig
      = basePath ++ "/worktrees/feat-task-1-integration-test-task" := by
  rw [workspaceTargetPath, worktreeTarget]
  exact congrArg (fun t => basePath ++ t) (by decide)

/-- C6: end-to-end scenario A — for the input
`{taskId:"task-1", title:"Integration Test Task", description:"Testing the
full flow", priority:"high"}` against a fresh repository with a `main`
branch, `createWorkspace` returns status `"created"`, the branch
`feat/task-1-integration-test-task`, and a `worktreePath` equal to the
repository root joined with `worktrees` and the branch name with every `/`
replaced by `-`, with a session afterwards findable by `taskId:"task-1"`. -/
theorem createWorkspace_scenario_a (basePath : String) (opts : CreateOptions)
    (w : World)
    (hfresh : findSessionByTask w.state "task-1" = Option.none)
    (hpath : worktreePathExists w
      (basePath ++ "/worktrees/feat-task-1-integration-test-task") = false)
    (hbase : w.branches.contains "main" = true) :
    (createWorkspace scenarioAInput basePath opts defaultConfig w).1.status
        = Status.created
      ∧ (createWorkspace scenarioAInput basePath opts defaultConfig w).1.branch
        = some "feat/task-1-integration-test-task"
      ∧ (createWorkspace scenarioAInput basePath opts defaultConfig w).1.worktreePath
        = some (basePath ++ "/worktrees/feat-task-1-integration-test-task")
      ∧ (findSessionByTask
          (createWorkspace scenarioAInput basePath opts defaultConfig w).2.state
          "task-1").isSome = true := by
  have hpath2 : worktreePathExists w
      (workspaceTargetPath scenarioAInput basePath defaultConfig) = false := by
    rw [scenarioA_targetPath]
    exact hpath
  have h1 := createWorkspace_fresh scenarioAInput basePath opts defaultConfig w
    hfresh hpath2 hbase
  rw [h1]
  refine ⟨rfl, ?_, ?_, ?_⟩
  · show some (workspaceBranch scenarioAInput defaultConfig)
        = some "feat/task-1-integration-test-task"
    decide
  · show some (workspaceTargetPath scenarioAInput basePath defaultConfig) = _
    rw [scenarioA_targetPath]
  · rw [findSessionByTask_saveSession_tid w.state
      (newSession scenarioAInput basePath opts defaultConfig w) "task-1" rfl]
    rfl

/-- Witness for C6: the scenario A theorem applied to a concrete fresh
repository. -/
theorem createWorkspace_scenario_a_witness :
    (createWorkspace scenarioAInput "/repo" {} defaultConfig fixtureWorld).1.status
        = Status.created
      ∧ (createWorkspace scenarioAInput "/repo" {} defaultConfig fixtureWorld).1.branch
        = some "feat/task-1-integration-test-task"
      ∧ (createWorkspace scenarioAInput "/repo" {} defaultConfig fixtureWorld).1.worktreePath
        = some ("/repo" ++ "/worktrees/feat-task-1-integration-test-task")
      ∧ (findSessionByTask
          (createWorkspace scenarioAInput "/repo" {} defaultConfig fixtureWorld).2.state
          "task-1").isSome = true :=
  createWorkspace_scenario_a "/repo" {} fixtureWorld rfl rfl rfl

/-- C3: config precedence — a `transmute` section exposed by
`opencode.config.ts` wins over any JSON config file, and with no
configuration source present the built-in defaults are returned with source
`"default"` and no `configPath`. -/
theorem loadConfig_precedence (env : ConfigEnv) (basePath : String) :
    (∀ raw cfg, env.tsSection = some raw → parseConfig raw = Except.ok cfg →
        loadConfig env basePath =
          { config := cfg, source := ConfigSource.opencodeTs
            configPath := some (basePath ++ "/opencode.config.ts") })
      ∧ (env.tsSection = Option.none →
          (∀ rel ∈ configFiles, env.files rel = Option.none) →
          loadConfig env basePath =
            { config := defaultConfig, source := ConfigSource.defaults
              configPath := Option.none }) := by
  constructor
  · intro raw cfg hts hparse
    have hjoin : joinPath basePath "opencode.config.ts"
        = basePath ++ "/opencode.config.ts" :=
      congrArg (fun t => basePath ++ t) (by decide)
    simp only [loadConfig, hts, hparse]
    rw [hjoin]
  · intro hts hfiles
    have hfind : findConfigFileRel env = Option.none := by
      rw [findConfigFileRel, List.find?_eq_none]
      intro rel hrel
      simp [hfiles rel hrel]
    simp only [loadConfig, hts, loadConfigJsonStep, hfind]
    rfl

/-- Witness for C3: the precedence theorem applied to an environment whose
structured module is valid while JSON files are present everywhere, and to
an environment with no configuration source. -/
theorem loadConfig_precedence_witness :
    loadConfig envTsOk "/repo" =
        { config := defaultConfig, source := ConfigSource.opencodeTs
          configPath := some ("/repo" ++ "/opencode.config.ts") }
      ∧ loadConfig envEmpty "/repo" =
        { config := defaultConfig, source := ConfigSource.defaults
          configPath := Option.none } :=
  ⟨(loadConfig_precedence envTsOk "/repo").1 {} defaultConfig rfl rfl,
   (loadConfig_precedence envEmpty "/repo").2 rfl (fun _ _ => rfl)⟩

/-- C7: configuration loading is never a hard failure — each candidate
source is attempted in order (structured module, then the JSON file
locations, then defaults) and a parse or validation failure at one
precedence level causes silent fallthrough to the next; the result always
carries one of the three sources. -/
theorem loadConfig_never_fails (env : ConfigEnv) (basePath : String) :
    (∀ raw e, env.tsSection = some raw → parseConfig raw = Except.error e →
        loadConfig env basePath = loadConfigJsonStep env basePath)
      ∧ (env.tsSection = Option.none →
          loadConfig env basePath = loadConfigJsonStep env basePath)
      ∧ (findConfigFileRel env = Option.none →
          loadConfigJsonStep env basePath = defaultLoadResult)
      ∧ (∀ rel, findConfigFileRel env = some rel →
          env.files rel = some JsonContent.malformed →
          loadConfigJsonStep env basePath = defaultLoadResult)
      ∧ (∀ rel raw e, findConfigFileRel env = some rel →
          env.files rel = some (JsonContent.parsed raw) →
          parseConfig raw = Except.error e →
          loadConfigJsonStep env basePath = defaultLoadResult)
      ∧ ((loadConfig env basePath).source = ConfigSource.opencodeTs
          ∨ (loadConfig env basePath).source = ConfigSource.json
          ∨ (loadConfig env basePath).source = ConfigSource.defaults) := by
  refine ⟨?_, ?_, ?_, ?_, ?_, ?_⟩
  · intro raw e hts hparse
    simp only [loadConfig, hts, hparse]
  · intro hts
    simp only [loadConfig, hts]
  · intro hfind
    simp only [loadConfigJsonStep, hfind]
  · intro rel hfind hfile
    simp only [loadConfigJsonStep, hfind, hfile]
  · intro rel raw e hfind hfile hparse
    simp only [loadConfigJsonStep, hfind, hfile, hparse]
  · have hjson : (loadConfigJsonStep env basePath).source = ConfigSource.json
        ∨ (loadConfigJsonStep env basePath).source = ConfigSource.defaults := by
      cases hfind : findConfigFileRel env with
      | none =>
        refine Or.inr ?_
        simp only [loadConfigJsonStep, hfind]
        rfl
      | some rel =>
        cases hfile : env.files rel with
        | none =>
          refine Or.inr ?_
          simp only [loadConfigJsonStep, hfind, hfile]
          rfl
        | some content =>
          cases content with
          | malformed =>
            refine Or.inr ?_
            simp only [loadConfigJsonStep, hfind, hfile]
            rfl
          | parsed raw =>
            cases hparse : parseConfig raw with
            | ok cfg =>
              refine Or.inl ?_
              simp only [loadConfigJsonStep, hfind, hfile, hparse]
            | error e =>
              refine Or.inr ?_
              simp only [loadConfigJsonStep, hfind, hfile, hparse]
              rfl
    cases hts : env.tsSection with
    | none =>
      refine Or.inr ?_
      simp only [loadConfig, hts]
      exact hjson
    | some raw =>
      cases hparse : parseConfig raw with
      | ok cfg =>
        refine Or.inl ?_
        simp only [loadConfig, hts, hparse]
      | error e =>
        refine Or.inr ?_
        simp only [loadConfig, hts, hparse]
        exact hjson

/-- Witness for C7: the fallthrough theorem applied to concrete
environments exercising each failure mode. -/
theorem loadConfig_never_fails_witness :
    loadConfig envTsBad "/repo" = loadConfigJsonStep envTsBad "/repo"
      ∧ loadConfig envEmpty "/repo" = loadConfigJsonStep envEmpty "/repo"
      ∧ loadConfigJsonStep envEmpty "/repo" = defaultLoadResult
      ∧ loadConfigJsonStep envJsonMalformed "/repo" = defaultLoadResult
      ∧ loadConfigJsonStep envJsonBad "/repo" = defaultLoadResult :=
  ⟨(loadConfig_never_fails envTsBad "/repo").1 rawBadConfig
      "invalid maxBranchSlugLength" rfl rfl,
   (loadConfig_never_fails envEmpty "/repo").2.1 rfl,
   (loadConfig_never_fails envEmpty "/repo").2.2.1 rfl,
   (loadConfig_never_fails envJsonMalformed "/repo").2.2.2.1
      "transmute.config.json" rfl rfl,
   (loadConfig_never_fails envJsonBad "/repo").2.2.2.2.1
      "transmute.config.json" rawBadConfig "invalid maxBranchSlugLength" rfl rfl rfl⟩

/-- Witness for C9: the hooks-defaulting theorem applied to a concrete
empty hooks configuration and to concrete non-empty ones. -/
theorem getHooksConfig_empty_defaults_witness :
    getHooksConfig hooksEmptyConfig = defaultHooks
      ∧ getHooksConfig hooksCustomConfig = hooksCustomConfig.hooks
      ∧ getHooksConfig hooksDestroyConfig = hooksDestroyConfig.hooks :=
  ⟨(getHooksConfig_empty_defaults hooksEmptyConfig).1 rfl rfl,
   (getHooksConfig_empty_defaults hooksCustomConfig).2.1 "custom-install" [] rfl,
   (getHooksConfig_empty_defaults hooksDestroyConfig).2.2 "custom-cleanup" [] rfl⟩

end Transmute
